import Mathlib

/-!
# VisuaLearn backend — verification of the orchestration core

Shallow embedding of the pipeline orchestrator of the VisuaLearn backend
(`backend/app/services/orchestrator.py`, `review_agent.py`, `file_manager.py`,
`api/diagram.py`) and proofs of the specified properties: the approval
policy, the bounded review/refinement loop, the failure/cleanup behaviour,
the refinement-channel protocol, the progress stream shape, and the
filename validation of the storage layer.

External collaborators (the planning, generation, review, refinement,
conversion and storage services) are modelled as oracles: functions the
embedded orchestrator consumes, returning either a value or an error, so
every control path of the Python code is represented.
-/

/-! ## Approval policy (`ReviewAgent._determine_approval`) -/

/-- `ReviewAgent._determine_approval(score, iteration)`: score ≥ 80 approves;
60 ≤ score < 80 approves from iteration 2 on; score < 60 approves only once
`iteration ≥ max_iterations`.  `max_iterations` is
`settings.review_max_iterations`, whose default is 3 (`config.py`). -/
def determine_approval (max_iterations : Nat) (score : Int) (iteration : Nat) : Bool :=
  if score ≥ 80 then
    true
  else if score ≥ 60 then
    decide (iteration ≥ 2)
  else
    decide (iteration ≥ max_iterations)

/-- The default `review_max_iterations` from `config.py`. -/
def review_max_iterations_default : Nat := 3

/-- The approval policy as the spec's sentence describes it (90/70 table):
score ≥ 90 always approves, 70 ≤ score < 90 refines, score < 70 refines
unless `iteration == max_iterations`. -/
def approve_spec (max_iterations : Nat) (score : Int) (iteration : Nat) : Bool :=
  if score ≥ 90 then
    true
  else if score ≥ 70 then
    false
  else
    decide (iteration = max_iterations)

/-! ## The review/refinement loop (`Orchestrator.orchestrate`, step 3) -/

/-- `ReviewOutput` from `review_agent.py`. -/
structure ReviewOutput where
  score : Int
  approved : Bool
  feedback : String
  refinement_instructions : List String
  iteration : Nat
deriving Repr, DecidableEq

/-- The fallback `ReviewOutput` synthesized when the very first review call
fails (`orchestrator.py`, the `except ReviewError` branch with
`review_result is None`): fixed score 70, `approved=True`. -/
def fallback_review (iteration : Nat) : ReviewOutput :=
  { score := 70
    approved := true
    feedback := "Auto-approved due to review timeout."
    refinement_instructions := []
    iteration := iteration }

/-- The loop's collaborators as oracles.  `review i xml` models
`self.review_agent.validate(xml_content, plan, iteration)` (a `ReviewError`
becomes `.error ()`), and `refine xml feedback` models
`self._refine_via_mcp(xml_content, feedback)` (an `OrchestrationError`
becomes `.error ()`).  The oracle may depend on the iteration number and on
the current XML, which together determine the call site's arguments. -/
structure LoopEnv where
  review : Nat → String → Except Unit ReviewOutput
  refine : String → String → Except Unit String

/-- One entry of `refinement_attempts`: iteration, triggering score,
joined feedback. -/
structure RefinementAttempt where
  iteration : Nat
  score : Int
  feedback : String
deriving Repr, DecidableEq

/-- The loop's mutable state in `orchestrate`: the current XML, the last
`ReviewOutput` (if any), the accumulated `refinement_attempts`, the two call
counters (ghost fields counting `validate` and `_refine_via_mcp` calls), and
the `iteration` counter. -/
structure LoopState where
  xml_content : String
  review_result : Option ReviewOutput
  refinement_attempts : List RefinementAttempt
  reviewCalls : Nat
  refineCalls : Nat
  iteration : Nat
deriving Repr, DecidableEq

/-- One-to-one embedding of the `while iteration < max_iterations` body.
`fuel` stands for `max_iterations - iteration`, so the recursion mirrors the
while-condition exactly: the loop body runs only while fuel remains.

Body (from `orchestrator.py`): `iteration += 1`; call review.  On
`ReviewError`: synthesize `fallback_review` if no prior result, then `break`.
On success: record the result; `break` if approved; otherwise, if
`iteration < max_iterations`, join the refinement instructions with spaces
and call refine — on failure `break` (keep current diagram), on success
replace the XML, append a `RefinementAttempt` and continue; if instead
`iteration = max_iterations`, fall out of the loop. -/
def review_loop_go (env : LoopEnv) (max_iterations : Nat) :
    Nat → LoopState → LoopState
  | 0, st => st
  | fuel + 1, st =>
    let i := st.iteration + 1
    match env.review i st.xml_content with
    | .error _ =>
      match st.review_result with
      | none =>
        { st with iteration := i, reviewCalls := st.reviewCalls + 1,
                  review_result := some (fallback_review i) }
      | some _ =>
        { st with iteration := i, reviewCalls := st.reviewCalls + 1 }
    | .ok r =>
      let st1 : LoopState :=
        { st with iteration := i, reviewCalls := st.reviewCalls + 1,
                  review_result := some r }
      if r.approved then
        st1
      else if i < max_iterations then
        let feedback := String.intercalate " " r.refinement_instructions
        match env.refine st1.xml_content feedback with
        | .error _ => { st1 with refineCalls := st1.refineCalls + 1 }
        | .ok newXml =>
          review_loop_go env max_iterations fuel
            { st1 with
              xml_content := newXml,
              refinement_attempts :=
                st1.refinement_attempts ++ [⟨i, r.score, feedback⟩],
              refineCalls := st1.refineCalls + 1 }
      else
        st1

/-- The loop state on entry: `iteration = 0`, no review result, no
refinements, and the XML produced by generation. -/
def init_loop_state (xml : String) : LoopState :=
  { xml_content := xml, review_result := none, refinement_attempts := [],
    reviewCalls := 0, refineCalls := 0, iteration := 0 }

/-- The whole review/refinement loop of `orchestrate`, starting from the
generated XML.  Initially `iteration = 0`, so the while-loop has exactly
`max_iterations` passes available. -/
def review_loop (env : LoopEnv) (max_iterations : Nat) (xml : String) :
    LoopState :=
  review_loop_go env max_iterations max_iterations (init_loop_state xml)

/-- After the loop, `orchestrate` raises
`OrchestrationError("Review process failed to produce result")` iff
`review_result is None`; otherwise the pipeline proceeds to conversion.
`true` means the pipeline continues (no abort from the loop). -/
def review_loop_completes (st : LoopState) : Bool :=
  st.review_result.isSome

/-! ## Conversion, storage and cleanup (`orchestrate` steps 4-6 and the
`except Exception` handler) -/

/-- `Except.isOk` as a plain boolean, for both error payloads used here. -/
def isOkE {e a : Type} : Except e a → Bool
  | .ok _ => true
  | .error _ => false

/-- Collaborators of the pipeline tail: `image_converter.to_svg`,
`file_manager.save_file(·, "svg")`, `file_manager.save_file(·, "xml")`
(each returning a filename) and `file_manager.delete_file`, all modelled as
oracles carrying the raised error's message on failure. -/
structure FinishEnv where
  convert : String → Except String String
  saveSvg : String → Except String String
  saveXml : String → Except String String
  delete : String → Except String Unit

/-- Replace only the delete oracle. -/
def withDelete (env : FinishEnv) (d : String → Except String Unit) : FinishEnv :=
  { env with delete := d }

/-- Outcome of the pipeline tail: the result (`(svg_filename, xml_filename)`
on success, the wrapped `OrchestrationError` message on failure), the handles
persisted so far (ghost), the handles on which `delete_file` was called
(ghost), and the cleanup failures that were logged (ghost). -/
structure FinishResult where
  outcome : Except String (String × String)
  persisted : List String
  deleted : List String
  cleanup_failures : List String
deriving Repr

/-- Steps 4-6 of `orchestrate` plus its `except Exception` handler:
convert the XML to SVG, save the SVG then the XML.  On any exception,
delete each filename already assigned (`svg_filename`, then `xml_filename`),
catching and logging `FileOperationError` from the deletions, and re-raise
`OrchestrationError(f"Pipeline failed: {e}")` built from the original
exception only.  Before `save_file` succeeds the corresponding filename
variable is still `None`, so a conversion or first-save failure triggers no
deletion at all. -/
def finish_pipeline (env : FinishEnv) (xml : String) : FinishResult :=
  match env.convert xml with
  | .error e =>
    { outcome := .error ("Pipeline failed: " ++ e), persisted := [],
      deleted := [], cleanup_failures := [] }
  | .ok svg =>
    match env.saveSvg svg with
    | .error e =>
      { outcome := .error ("Pipeline failed: " ++ e), persisted := [],
        deleted := [], cleanup_failures := [] }
    | .ok f1 =>
      match env.saveXml xml with
      | .error e =>
        { outcome := .error ("Pipeline failed: " ++ e), persisted := [f1],
          deleted := [f1],
          cleanup_failures := if isOkE (env.delete f1) then [] else [f1] }
      | .ok f2 =>
        { outcome := .ok (f1, f2), persisted := [f1, f2], deleted := [],
          cleanup_failures := [] }

/-! ## The refinement channel (`Orchestrator._refine_via_mcp`) -/

/-- The orchestrator's MCP bookkeeping: `self._message_id` and whether
`self.mcp_process` is set (`alive = false` models `mcp_process = None`). -/
structure McpState where
  messageId : Nat
  alive : Bool
deriving Repr, DecidableEq

/-- A decoded MCP response line: its correlation `id`, whether the top-level
`"error"` key is present, whether `result.isError` is set, and
`result.get("xml")` (absent, or present with its text). -/
structure McpResp where
  id : Int
  hasError : Bool
  resultIsError : Bool
  xml : Option String
deriving Repr, DecidableEq

/-- What one `readline` on the worker's stdout produced: a zero-byte read
(worker closed its end), a broken pipe / OS error, or one line that either
fails or succeeds JSON decoding. -/
inductive McpRead where
  | closed : McpRead
  | pipeLost : McpRead
  | line : Option McpResp → McpRead
deriving Repr, DecidableEq

/-- Result of one `_refine_via_mcp` call: the updated orchestrator state,
the correlation id sent with the request, the number of `readline` calls
performed (ghost), and the returned XML or the raised error's message. -/
structure McpCallResult where
  state : McpState
  sentId : Nat
  reads : Nat
  result : Except String String
deriving Repr

/-- `_refine_via_mcp`, given what the single `readline` returns.  It ensures
the worker is running, takes `_get_next_message_id()` (`self._message_id += 1`),
writes one request carrying that id, and reads exactly one line.  A zero-byte
read or a broken pipe sets `self.mcp_process = None` and raises; a JSON decode
failure, a response-level `"error"`, `result.isError`, or a missing/empty
`result["xml"]` raise without discarding the worker; otherwise the refined
XML is returned.  The response's `id` field is never consulted. -/
def refine_via_mcp (st : McpState) (rd : McpRead) : McpCallResult :=
  let msgId := st.messageId + 1
  let st1 : McpState := { messageId := msgId, alive := true }
  match rd with
  | .closed =>
    { state := { st1 with alive := false }, sentId := msgId, reads := 1,
      result := .error "MCP server connection lost" }
  | .pipeLost =>
    { state := { st1 with alive := false }, sentId := msgId, reads := 1,
      result := .error "MCP connection failed" }
  | .line none =>
    { state := st1, sentId := msgId, reads := 1,
      result := .error "Invalid MCP response format" }
  | .line (some resp) =>
    if resp.hasError then
      { state := st1, sentId := msgId, reads := 1,
        result := .error "MCP refinement failed" }
    else if resp.resultIsError then
      { state := st1, sentId := msgId, reads := 1,
        result := .error "MCP refinement failed" }
    else
      match resp.xml with
      | none =>
        { state := st1, sentId := msgId, reads := 1,
          result := .error "MCP did not return refined XML" }
      | some s =>
        if s.isEmpty then
          { state := st1, sentId := msgId, reads := 1,
            result := .error "MCP did not return refined XML" }
        else
          { state := st1, sentId := msgId, reads := 1, result := .ok s }

/-! ## The progress stream (`api/diagram.py`, `progress_stream`) -/

/-- `ProgressEvent.type`: `"progress"`, `"complete"` or `"error"`. -/
inductive EventType where
  | progress : EventType
  | complete : EventType
  | error : EventType
deriving Repr, DecidableEq

/-- One server-sent event, parametric in the pipeline-result type `R`
(`complete` carries the full `DiagramResponse`). -/
structure ProgressEvent (R : Type) where
  type : EventType
  stage : String
  status : String
  progress : Nat
  data : Option R
  error : Option String

/-- The initial event, sent before `orchestrate` is awaited. -/
def initial_event (R : Type) : ProgressEvent R :=
  { type := .progress, stage := "planning",
    status := "Analyzing concept and creating diagram plan...",
    progress := 0, data := none, error := none }

/-- The five per-stage progress events replayed after a successful run, at
percentages 20, 50, 75, 90, 99 (the status texts interpolate the recorded
stage timings; the timing values are abstracted away here). -/
def stage_events (R : Type) : List (ProgressEvent R) :=
  [ { type := .progress, stage := "planning", status := "Planning completed",
      progress := 20, data := none, error := none },
    { type := .progress, stage := "generation", status := "Diagram generated",
      progress := 50, data := none, error := none },
    { type := .progress, stage := "review", status := "Quality review completed",
      progress := 75, data := none, error := none },
    { type := .progress, stage := "conversion", status := "Image conversion completed",
      progress := 90, data := none, error := none },
    { type := .progress, stage := "storage", status := "Files saved",
      progress := 99, data := none, error := none } ]

/-- The terminal `complete` event, carrying the full response. -/
def complete_event {R : Type} (r : R) : ProgressEvent R :=
  { type := .complete, stage := "storage",
    status := "Diagram generation complete!",
    progress := 100, data := some r, error := none }

/-- The terminal `error` event emitted by the two `except` handlers, carrying
the wrapped error message. -/
def error_event (R : Type) (e : String) : ProgressEvent R :=
  { type := .error, stage := "unknown", status := "Generation failed",
    progress := 0, data := none, error := some e }

/-- The event sequence `progress_stream` yields, as a function of what
`orchestrator.orchestrate` returns: the initial event, then on success the
five stage events followed by the `complete` event, or on failure the single
`error` event.  The exception handlers wrap the whole generator body, and the
`complete`/`error` yields are the last statements of their paths, so nothing
follows the terminal event. -/
def progress_stream (R : Type) (res : Except String R) : List (ProgressEvent R) :=
  initial_event R ::
    match res with
    | .ok r => stage_events R ++ [complete_event r]
    | .error e => [error_event R e]

/-- An event is terminal iff its type is not `"progress"`. -/
def is_terminal {R : Type} (e : ProgressEvent R) : Bool :=
  match e.type with
  | .progress => false
  | .complete => true
  | .error => true

/-! ## Storage filename validation (`FileManager`) -/

/-- The path-traversal check shared by `get_file`, `delete_file` and
`get_file_metadata`: a filename containing `/` or `\` or starting with `.`
is rejected (`"/" in filename or "\\" in filename or
filename.startswith(".")`), stated over the filename's character list. -/
def bad_filename (filename : String) : Bool :=
  filename.data.contains '/' || filename.data.contains '\\' ||
    decide (filename.data.head? = some '.')

/-- A pure model of the temp directory: each path maps to a stored byte
list, or to nothing. -/
def Filesystem : Type := String → Option (List Nat)

/-- `FileManager.get_file`.  Second component: the paths on which any
filesystem operation (`exists`/`read_bytes`) was performed.  The traversal
check runs before any filesystem access. -/
def get_file (fs : Filesystem) (temp_dir filename : String) :
    Except String (List Nat) × List String :=
  if bad_filename filename then
    (.error ("Invalid filename: " ++ filename), [])
  else
    let filepath := temp_dir ++ "/" ++ filename
    match fs filepath with
    | none => (.error ("File not found: " ++ filename), [filepath])
    | some content => (.ok content, [filepath])

/-- `FileManager.delete_file`.  Deleting a missing file succeeds (the
`unlink` is guarded by `exists`); the traversal check runs first. -/
def delete_file (_fs : Filesystem) (temp_dir filename : String) :
    Except String Unit × List String :=
  if bad_filename filename then
    (.error ("Invalid filename: " ++ filename), [])
  else
    let filepath := temp_dir ++ "/" ++ filename
    (.ok (), [filepath])

/-- `FileManager.get_file_metadata`, abstracted to the one metadatum the
model can state (the size); the traversal check runs first. -/
def get_file_metadata (fs : Filesystem) (temp_dir filename : String) :
    Except String Nat × List String :=
  if bad_filename filename then
    (.error ("Invalid filename: " ++ filename), [])
  else
    let filepath := temp_dir ++ "/" ++ filename
    match fs filepath with
    | none => (.error ("File not found: " ++ filename), [filepath])
    | some content => (.ok content.length, [filepath])

/-! ## Theorems -/

/-- C1: the implemented approval policy is the 80/60 iteration-aware table,
not the 90/70 table stated by the claim, by `validate`'s own docstring
("Score ≥90: Auto-approve; Score 70-89: Request refinement") and by the
repository's tests (`test_review_agent.py` asserts
`_determine_approval(89, 1) is False` and `(75, 2) is False`).  At score 85,
iteration 1 (default `max_iterations = 3`) the code approves while the
claimed/tested policy requests refinement. -/
theorem determine_approval_spec_mismatch :
    determine_approval review_max_iterations_default 85 1 = true ∧
      approve_spec review_max_iterations_default 85 1 = false := by
  constructor <;> rfl

/-- The implemented approval policy, characterized: it approves exactly when
`score ≥ 80`, or `60 ≤ score < 80` and `iteration ≥ 2`, or `score < 60` and
`iteration ≥ max_iterations` (so at the final iteration any score is
accepted).  Shared helper for the monotonicity proof. -/
theorem determine_approval_characterization
    (max_iterations : Nat) (score : Int) (iteration : Nat) :
    determine_approval max_iterations score iteration = true ↔
      (80 ≤ score ∨
        (60 ≤ score ∧ score < 80 ∧ 2 ≤ iteration) ∨
        (score < 60 ∧ max_iterations ≤ iteration)) := by
  unfold determine_approval
  split
  · simp only [true_iff]
    left
    omega
  · split
    · simp only [decide_eq_true_eq]
      omega
    · simp only [decide_eq_true_eq]
      omega

/-- C8: for a fixed iteration, the default approval policy is monotonically
non-decreasing in the score, for every `max_iterations ≥ 2` (the shipped
default is 3). -/
theorem determine_approval_monotone
    (max_iterations iteration : Nat) (s1 s2 : Int)
    (hm : 2 ≤ max_iterations)
    (h : determine_approval max_iterations s1 iteration = true)
    (hs : s1 ≤ s2) :
    determine_approval max_iterations s2 iteration = true := by
  rw [determine_approval_characterization] at h ⊢
  omega

/-- C8 witness: monotonicity applied at `max_iterations = 3`, iteration 2,
scores 60 ≤ 100. -/
theorem determine_approval_monotone_witness :
    2 ≤ 3 ∧ determine_approval 3 60 2 = true ∧ (60 : Int) ≤ 100 ∧
      determine_approval 3 100 2 = true :=
  ⟨by decide, by decide, by decide,
    determine_approval_monotone 3 2 60 100 (by decide) (by decide) (by decide)⟩

/-- Each pass of the loop body performs exactly one review call, so `fuel`
passes perform at most `fuel` of them. -/
theorem review_loop_go_reviewCalls_le (env : LoopEnv) (m : Nat) :
    ∀ fuel st, (review_loop_go env m fuel st).reviewCalls ≤ st.reviewCalls + fuel := by
  intro fuel
  induction fuel with
  | zero =>
    intro st
    simp [review_loop_go]
  | succ n ih =>
    intro st
    rw [review_loop_go]
    cases henv : env.review (st.iteration + 1) st.xml_content with
    | error e =>
      cases hres : st.review_result <;> simp
    | ok r =>
      by_cases happ : r.approved
      · simp [happ]
      · simp only [happ, Bool.false_eq_true, if_false]
        by_cases hlt : st.iteration + 1 < m
        · simp only [hlt, if_true]
          cases href : env.refine st.xml_content
              (String.intercalate " " r.refinement_instructions) with
          | error e =>
            simp
          | ok newXml =>
            calc (review_loop_go env m n _).reviewCalls
                ≤ (st.reviewCalls + 1) + n := ih _
              _ ≤ st.reviewCalls + (n + 1) := by omega
        · simp [hlt]

/-- Refinement is attempted only while `iteration < max_iterations`, so with
`fuel = max_iterations - iteration` passes remaining at most `fuel - 1`
refinement calls happen. -/
theorem review_loop_go_refineCalls_le (env : LoopEnv) (m : Nat) :
    ∀ fuel st, st.iteration + fuel = m →
      (review_loop_go env m fuel st).refineCalls ≤ st.refineCalls + (fuel - 1) := by
  intro fuel
  induction fuel with
  | zero =>
    intro st _
    simp [review_loop_go]
  | succ n ih =>
    intro st hfuel
    rw [review_loop_go]
    cases henv : env.review (st.iteration + 1) st.xml_content with
    | error e =>
      cases hres : st.review_result <;> simp
    | ok r =>
      by_cases happ : r.approved
      · simp [happ]
      · simp only [happ, Bool.false_eq_true, if_false]
        by_cases hlt : st.iteration + 1 < m
        · simp only [hlt, if_true]
          cases href : env.refine st.xml_content
              (String.intercalate " " r.refinement_instructions) with
          | error e =>
            simp
            omega
          | ok newXml =>
            have hstep := ih
              { st with
                xml_content := newXml,
                iteration := st.iteration + 1,
                reviewCalls := st.reviewCalls + 1,
                review_result := some r,
                refinement_attempts := st.refinement_attempts ++
                  [⟨st.iteration + 1, r.score,
                    String.intercalate " " r.refinement_instructions⟩],
                refineCalls := st.refineCalls + 1 }
              (by simp; omega)
            simp only at hstep
            calc (review_loop_go env m n _).refineCalls
                ≤ (st.refineCalls + 1) + (n - 1) := hstep
              _ ≤ st.refineCalls + (n + 1 - 1) := by omega
        · simp [hlt]

/-- C2: the review/refinement loop always terminates (it is a total function
of its oracles) and, for every environment, input XML and `max_iterations`,
performs at most `max_iterations` review calls and at most
`max_iterations - 1` refinement calls. -/
theorem review_loop_call_bounds (env : LoopEnv) (m : Nat) (xml : String) :
    (review_loop env m xml).reviewCalls ≤ m ∧
      (review_loop env m xml).refineCalls ≤ m - 1 := by
  constructor
  · have h := review_loop_go_reviewCalls_le env m m (init_loop_state xml)
    simpa [review_loop, init_loop_state] using h
  · have h := review_loop_go_refineCalls_le env m m (init_loop_state xml)
      (by simp [init_loop_state])
    simpa [review_loop, init_loop_state] using h

/-- C3: if the review call fails on iteration 1 (no prior `ReviewResult`),
the loop substitutes the synthesized `fallback_review` — `approved = true`,
fixed score 70 — instead of aborting, and exits with `iterations = 1`, no
refinement call, and a completing pipeline. -/
theorem review_loop_fallback_first_iteration
    (env : LoopEnv) (m : Nat) (xml : String)
    (hm : 1 ≤ m) (h : env.review 1 xml = .error ()) :
    review_loop env m xml =
      { xml_content := xml, review_result := some (fallback_review 1),
        refinement_attempts := [], reviewCalls := 1, refineCalls := 0,
        iteration := 1 } ∧
      (fallback_review 1).approved = true ∧
      (fallback_review 1).score = 70 ∧
      review_loop_completes (review_loop env m xml) = true := by
  obtain ⟨k, rfl⟩ : ∃ k, m = k + 1 := ⟨m - 1, by omega⟩
  have hloop : review_loop env (k + 1) xml =
      { xml_content := xml, review_result := some (fallback_review 1),
        refinement_attempts := [], reviewCalls := 1, refineCalls := 0,
        iteration := 1 } := by
    rw [review_loop, review_loop_go]
    simp [init_loop_state, h]
  exact ⟨hloop, rfl, rfl, by rw [hloop]; rfl⟩

/-- C3 witness: a review oracle failing on iteration 1, with
`max_iterations = 3`. -/
theorem review_loop_fallback_first_iteration_witness :
    review_loop
        { review := fun _ _ => .error (), refine := fun _ _ => .ok "x" }
        3 "<mx>" =
      { xml_content := "<mx>", review_result := some (fallback_review 1),
        refinement_attempts := [], reviewCalls := 1, refineCalls := 0,
        iteration := 1 } ∧
      (fallback_review 1).approved = true ∧
      (fallback_review 1).score = 70 ∧
      review_loop_completes (review_loop
        { review := fun _ _ => .error (), refine := fun _ _ => .ok "x" }
        3 "<mx>") = true :=
  review_loop_fallback_first_iteration
    { review := fun _ _ => .error (), refine := fun _ _ => .ok "x" }
    3 "<mx>" (by decide) rfl

/-- C4 counterexample: with the review oracle succeeding on iteration 1
(score 65, not approved), the refinement succeeding, and the review call
failing on iteration 2, the run does not abort: the loop exits keeping the
iteration-1 `ReviewOutput` and the pipeline completes with `iterations = 2`.
The claim says a review failure on iteration ≥ 2 aborts the run. -/
theorem review_error_after_first_does_not_abort :
    review_loop
        { review := fun i _ =>
            if i = 1 then .ok ⟨65, false, "needs work", ["fix layout"], 1⟩
            else .error (),
          refine := fun _ _ => .ok "<mx2>" } 3 "<mx1>" =
      { xml_content := "<mx2>",
        review_result := some ⟨65, false, "needs work", ["fix layout"], 1⟩,
        refinement_attempts := [⟨1, 65, "fix layout"⟩],
        reviewCalls := 2, refineCalls := 1, iteration := 2 } ∧
      review_loop_completes (review_loop
        { review := fun i _ =>
            if i = 1 then .ok ⟨65, false, "needs work", ["fix layout"], 1⟩
            else .error (),
          refine := fun _ _ => .ok "<mx2>" } 3 "<mx1>") = true := by
  constructor <;> rfl

/-- C4 (amended): if the review call fails on a pass with a prior
`ReviewResult` (any iteration ≥ 2), the loop exits immediately keeping that
prior result unchanged — the pipeline continues instead of aborting. -/
theorem review_error_with_prior_keeps_result
    (env : LoopEnv) (m fuel : Nat) (st : LoopState) (r : ReviewOutput)
    (hprior : st.review_result = some r)
    (herr : env.review (st.iteration + 1) st.xml_content = .error ()) :
    review_loop_go env m (fuel + 1) st =
      { st with iteration := st.iteration + 1,
                reviewCalls := st.reviewCalls + 1 } ∧
      review_loop_completes (review_loop_go env m (fuel + 1) st) = true := by
  have h1 : review_loop_go env m (fuel + 1) st =
      { st with iteration := st.iteration + 1,
                reviewCalls := st.reviewCalls + 1 } := by
    rw [review_loop_go]
    simp [herr, hprior]
  refine ⟨h1, ?_⟩
  rw [h1]
  simp [review_loop_completes, hprior]

/-- C4 witness: the amended statement applied on iteration 2, after a
fallback result from iteration 1. -/
theorem review_error_with_prior_keeps_result_witness :
    review_loop_go
        { review := fun _ _ => .error (), refine := fun _ _ => .error () }
        3 2
        { xml_content := "<mx>", review_result := some (fallback_review 1),
          refinement_attempts := [], reviewCalls := 1, refineCalls := 0,
          iteration := 1 } =
      { xml_content := "<mx>", review_result := some (fallback_review 1),
        refinement_attempts := [], reviewCalls := 2, refineCalls := 0,
        iteration := 2 } ∧
      review_loop_completes (review_loop_go
        { review := fun _ _ => .error (), refine := fun _ _ => .error () }
        3 2
        { xml_content := "<mx>", review_result := some (fallback_review 1),
          refinement_attempts := [], reviewCalls := 1, refineCalls := 0,
          iteration := 1 }) = true :=
  review_error_with_prior_keeps_result
    { review := fun _ _ => .error (), refine := fun _ _ => .error () }
    3 1
    { xml_content := "<mx>", review_result := some (fallback_review 1),
      refinement_attempts := [], reviewCalls := 1, refineCalls := 0,
      iteration := 1 }
    (fallback_review 1) rfl rfl

/-- C6: if the refinement call fails on a non-final, non-approved pass, the
loop exits immediately with the current XML and the current `ReviewOutput`
as final — one refinement call was made, none retried, the artifact and the
refinement history are unchanged, and the pipeline completes. -/
theorem refine_failure_terminal_for_loop
    (env : LoopEnv) (m fuel : Nat) (st : LoopState) (r : ReviewOutput)
    (hrev : env.review (st.iteration + 1) st.xml_content = .ok r)
    (happ : r.approved = false)
    (hlt : st.iteration + 1 < m)
    (href : env.refine st.xml_content
      (String.intercalate " " r.refinement_instructions) = .error ()) :
    review_loop_go env m (fuel + 1) st =
      { st with iteration := st.iteration + 1,
                reviewCalls := st.reviewCalls + 1,
                review_result := some r,
                refineCalls := st.refineCalls + 1 } ∧
      review_loop_completes (review_loop_go env m (fuel + 1) st) = true := by
  have h1 : review_loop_go env m (fuel + 1) st =
      { st with iteration := st.iteration + 1,
                reviewCalls := st.reviewCalls + 1,
                review_result := some r,
                refineCalls := st.refineCalls + 1 } := by
    rw [review_loop_go]
    simp [hrev, happ, hlt, href]
  refine ⟨h1, ?_⟩
  rw [h1]
  rfl

/-- C6 witness: a refinement failure right after a non-approving first
review, with `max_iterations = 3`. -/
theorem refine_failure_terminal_for_loop_witness :
    review_loop_go
        { review := fun _ _ => .ok ⟨65, false, "needs work", ["fix layout"], 1⟩,
          refine := fun _ _ => .error () }
        3 3 (init_loop_state "<mx>") =
      { init_loop_state "<mx>" with
          iteration := 1, reviewCalls := 1,
          review_result := some ⟨65, false, "needs work", ["fix layout"], 1⟩,
          refineCalls := 1 } ∧
      review_loop_completes (review_loop_go
        { review := fun _ _ => .ok ⟨65, false, "needs work", ["fix layout"], 1⟩,
          refine := fun _ _ => .error () }
        3 3 (init_loop_state "<mx>")) = true :=
  refine_failure_terminal_for_loop
    { review := fun _ _ => .ok ⟨65, false, "needs work", ["fix layout"], 1⟩,
      refine := fun _ _ => .error () }
    3 2 (init_loop_state "<mx>")
    ⟨65, false, "needs work", ["fix layout"], 1⟩
    rfl rfl (by decide) rfl

/-- C5: on any conversion/storage failure, every handle persisted so far in
the run is deleted (best-effort: the cleanup outcome — including logged
cleanup failures — never changes the error returned, which wraps the
original exception); and when conversion fails before anything was stored,
nothing was persisted and delete is never called. -/
theorem cleanup_on_failure (env : FinishEnv)
    (d2 : String → Except String Unit) (xml : String) :
    (isOkE (finish_pipeline env xml).outcome = false →
      (finish_pipeline env xml).deleted = (finish_pipeline env xml).persisted) ∧
    (finish_pipeline (withDelete env d2) xml).outcome =
      (finish_pipeline env xml).outcome ∧
    (isOkE (env.convert xml) = false →
      (finish_pipeline env xml).persisted = [] ∧
      (finish_pipeline env xml).deleted = []) := by
  cases hc : env.convert xml with
  | error e =>
    simp [finish_pipeline, withDelete, isOkE, hc]
  | ok svg =>
    cases hs : env.saveSvg svg with
    | error e =>
      simp [finish_pipeline, withDelete, isOkE, hc, hs]
    | ok f1 =>
      cases hx : env.saveXml xml with
      | error e =>
        simp [finish_pipeline, withDelete, isOkE, hc, hs, hx]
      | ok f2 =>
        simp [finish_pipeline, withDelete, isOkE, hc, hs, hx]

/-- C5 witness: a run whose conversion fails, with a delete oracle that
itself fails, replaced by one that succeeds. -/
theorem cleanup_on_failure_witness :
    ((finish_pipeline
        ⟨fun _ => .error "render failed", fun _ => .ok "f1.svg",
         fun _ => .ok "f2.xml", fun _ => .error "delete failed"⟩
        "<mx>").deleted =
      (finish_pipeline
        ⟨fun _ => .error "render failed", fun _ => .ok "f1.svg",
         fun _ => .ok "f2.xml", fun _ => .error "delete failed"⟩
        "<mx>").persisted) ∧
    ((finish_pipeline
        (withDelete
          ⟨fun _ => .error "render failed", fun _ => .ok "f1.svg",
           fun _ => .ok "f2.xml", fun _ => .error "delete failed"⟩
          (fun _ => .ok ())) "<mx>").outcome =
      (finish_pipeline
        ⟨fun _ => .error "render failed", fun _ => .ok "f1.svg",
         fun _ => .ok "f2.xml", fun _ => .error "delete failed"⟩
        "<mx>").outcome) ∧
    ((finish_pipeline
        ⟨fun _ => .error "render failed", fun _ => .ok "f1.svg",
         fun _ => .ok "f2.xml", fun _ => .error "delete failed"⟩
        "<mx>").persisted = [] ∧
      (finish_pipeline
        ⟨fun _ => .error "render failed", fun _ => .ok "f1.svg",
         fun _ => .ok "f2.xml", fun _ => .error "delete failed"⟩
        "<mx>").deleted = []) := by
  have h := cleanup_on_failure
    ⟨fun _ => .error "render failed", fun _ => .ok "f1.svg",
     fun _ => .ok "f2.xml", fun _ => .error "delete failed"⟩
    (fun _ => .ok ()) "<mx>"
  exact ⟨h.1 rfl, h.2.1, h.2.2 rfl⟩

/-- Every branch of `_refine_via_mcp` sends the freshly incremented id,
leaves `_message_id` at that id, and reads exactly one line. -/
theorem refine_via_mcp_fields (st : McpState) (rd : McpRead) :
    (refine_via_mcp st rd).sentId = st.messageId + 1 ∧
    (refine_via_mcp st rd).state.messageId = st.messageId + 1 ∧
    (refine_via_mcp st rd).reads = 1 := by
  cases rd with
  | closed => exact ⟨rfl, rfl, rfl⟩
  | pipeLost => exact ⟨rfl, rfl, rfl⟩
  | line o =>
    cases o with
    | none => exact ⟨rfl, rfl, rfl⟩
    | some resp =>
      simp only [refine_via_mcp]
      by_cases h1 : resp.hasError
      · simp [h1]
      · by_cases h2 : resp.resultIsError
        · simp [h1, h2]
        · cases hx : resp.xml with
          | none => simp [h1, h2, hx]
          | some s =>
            by_cases h3 : s.isEmpty <;> simp [h1, h2, hx, h3]

/-- C7 counterexample: a response whose correlation id (999) does not match
the request's id (1) is accepted as the refinement result — the worker is
kept and no error is raised, so an id mismatch is not treated as connection
loss. -/
theorem mcp_id_mismatch_not_connection_loss :
    (refine_via_mcp ⟨0, true⟩
        (.line (some ⟨999, false, false, some "<mx2>"⟩))).result = .ok "<mx2>" ∧
    (refine_via_mcp ⟨0, true⟩
        (.line (some ⟨999, false, false, some "<mx2>"⟩))).sentId = 1 ∧
    (refine_via_mcp ⟨0, true⟩
        (.line (some ⟨999, false, false, some "<mx2>"⟩))).state.alive = true := by
  refine ⟨rfl, rfl, rfl⟩

/-- C7 (amended): every `_refine_via_mcp` call sends a request with the
strictly increased correlation id `_message_id + 1` (and stores it back, so
successive calls send strictly increasing ids), reads exactly one
line-delimited response, and treats a zero-byte read as connection loss
(worker handle discarded, error raised); the response's id is never
consulted — the outcome is invariant under changing it. -/
theorem refine_via_mcp_protocol (st : McpState) (rd : McpRead) :
    (refine_via_mcp st rd).sentId = st.messageId + 1 ∧
    (refine_via_mcp st rd).state.messageId = st.messageId + 1 ∧
    (refine_via_mcp st rd).reads = 1 ∧
    (rd = .closed →
      (refine_via_mcp st rd).state.alive = false ∧
      isOkE (refine_via_mcp st rd).result = false) ∧
    (∀ (resp : McpResp) (j : Int),
      refine_via_mcp st (.line (some { resp with id := j })) =
        refine_via_mcp st (.line (some resp))) := by
  obtain ⟨h1, h2, h3⟩ := refine_via_mcp_fields st rd
  refine ⟨h1, h2, h3, ?_, ?_⟩
  · intro hrd
    subst hrd
    exact ⟨rfl, rfl⟩
  · intro resp j
    cases resp
    rfl

/-- C7 witness: the protocol facts at `_message_id = 0` with a zero-byte
read. -/
theorem refine_via_mcp_protocol_witness :
    (refine_via_mcp ⟨0, true⟩ .closed).sentId = 0 + 1 ∧
    (refine_via_mcp ⟨0, true⟩ .closed).state.messageId = 0 + 1 ∧
    (refine_via_mcp ⟨0, true⟩ .closed).reads = 1 ∧
    ((refine_via_mcp ⟨0, true⟩ .closed).state.alive = false ∧
      isOkE (refine_via_mcp ⟨0, true⟩ .closed).result = false) := by
  have h := refine_via_mcp_protocol ⟨0, true⟩ .closed
  exact ⟨h.1, h.2.1, h.2.2.1, h.2.2.2.1 rfl⟩

/-- C9: every stream the streaming endpoint produces has non-decreasing
progress percentages and exactly one terminal event, which is the last
event of the stream — the `complete` event carrying the full result on
success, or the `error` event carrying the wrapped error on failure. -/
theorem progress_stream_shape (R : Type) (res : Except String R) :
    List.Chain' (fun a b => a.progress ≤ b.progress) (progress_stream R res) ∧
    ((progress_stream R res).filter (fun e => is_terminal e)).length = 1 ∧
    (progress_stream R res).getLast? =
      some (match res with
            | .ok r => complete_event r
            | .error e => error_event R e) ∧
    is_terminal (match res with
                 | .ok r => complete_event r
                 | .error e => error_event R e) = true := by
  cases res with
  | ok r =>
    refine ⟨?_, rfl, rfl, rfl⟩
    simp [progress_stream, initial_event, stage_events, complete_event,
      List.chain'_cons]
  | error e =>
    refine ⟨?_, rfl, rfl, rfl⟩
    simp [progress_stream, initial_event, error_event, List.chain'_cons]

/-- C10: a filename containing `/` or `\` or starting with `.` makes
`get_file`, `delete_file` and `get_file_metadata` fail with the
`FileOperationError` message immediately, with no filesystem access at all
— no stored file can be read or deleted through a path-traversal name. -/
theorem path_traversal_rejected (fs : Filesystem) (temp_dir filename : String)
    (h : bad_filename filename = true) :
    get_file fs temp_dir filename =
      (.error ("Invalid filename: " ++ filename), []) ∧
    delete_file fs temp_dir filename =
      (.error ("Invalid filename: " ++ filename), []) ∧
    get_file_metadata fs temp_dir filename =
      (.error ("Invalid filename: " ++ filename), []) := by
  simp [get_file, delete_file, get_file_metadata, h]

/-- C10 witness: the classic traversal name `../secret.svg`. -/
theorem path_traversal_rejected_witness :
    get_file (fun _ => none) "./temp" "../secret.svg" =
      (.error ("Invalid filename: " ++ "../secret.svg"), []) ∧
    delete_file (fun _ => none) "./temp" "../secret.svg" =
      (.error ("Invalid filename: " ++ "../secret.svg"), []) ∧
    get_file_metadata (fun _ => none) "./temp" "../secret.svg" =
      (.error ("Invalid filename: " ++ "../secret.svg"), []) :=
  path_traversal_rejected (fun _ => none) "./temp" "../secret.svg" (by decide)
